import Mathlib

/-!
Verification of the Poke-Guesser core logic (src/script.js) against its
natural-language specification. The source file holds two variants of the
game script, concatenated; both are embedded here where a claim refers to
both. Variant 1 is the script with the cyrb128/sfc32 PRNG and the move
history string; variant 2 is the script with the LCG PRNG and no history
string. JavaScript numbers that the code coerces with parseInt are modeled
as Int; JavaScript strings as Lean String; a possibly absent field
(type2) as Option; the value undefined returned by an out-of-range array
access as Option.none.
-/

namespace PokeGuesser

/-- The JavaScript string method trim: drop whitespace from both ends.
Stated over the character list so that the kernel can evaluate it. -/
def jsTrim (s : String) : String :=
  ⟨((s.data.dropWhile Char.isWhitespace).reverse.dropWhile Char.isWhitespace).reverse⟩

/-- The JavaScript string method toLowerCase, for the ASCII names used
here. Stated over the character list so that the kernel can evaluate it. -/
def jsToLower (s : String) : String :=
  ⟨s.data.map Char.toLower⟩

/-- One dataset entity, with the six stats read by the STATS loop, the two
category tags and the generation marker. -/
structure Record where
  name : String
  hp : Int
  attack : Int
  defense : Int
  sp_attack : Int
  sp_defense : Int
  speed : Int
  type1 : String
  type2 : Option String
  generation : String
deriving DecidableEq

/-- The canonical stat order, as in the STATS constant of the source. -/
def STATS : List String := [("hp"), ("attack"), ("defense"), ("sp_attack"), ("sp_defense"), ("speed")]

/-- Property access guessPokemon[stat] for the six stat keys. Only ever
applied to members of STATS. -/
def statVal (p : Record) (stat : String) : Int :=
  if stat = "hp" then p.hp
  else if stat = "attack" then p.attack
  else if stat = "defense" then p.defense
  else if stat = "sp_attack" then p.sp_attack
  else if stat = "sp_defense" then p.sp_defense
  else p.speed

/-- One feedback row pushed by compareGuess: the stat key, the guessed
value, the color cls (the class field of the source) and the direction
indicator. -/
structure FeedbackEntry where
  stat : String
  value : Int
  cls : String
  indicator : String
deriving DecidableEq

/-- The body of the per-stat loop of compareGuess, also reused for the
total row: colorClass is green on equality, else yellow within closeRange,
else red; the indicator is the up arrow when the guess is below the
target, the down arrow when above, else the empty string. -/
def statEntry (closeRange : Nat) (stat : String) (guessVal targetVal : Int) : FeedbackEntry :=
  { stat := stat
    value := guessVal
    cls :=
      if guessVal = targetVal then ("green")
      else if (guessVal - targetVal).natAbs ≤ closeRange then ("yellow")
      else ("red")
    indicator :=
      if guessVal < targetVal then ("↑")
      else if targetVal < guessVal then ("↓")
      else ("") }

/-- STATS.reduce((sum, stat) => sum + parseInt(p[stat]), 0). -/
def statTotal (p : Record) : Int :=
  STATS.foldl (fun sum stat => sum + statVal p stat) 0

/-- compareGuess of variant 1: the six stat rows with closeRange 5,
followed by the total row with closeRange 20. -/
def compareGuess (guessPokemon targetPokemon : Record) : List FeedbackEntry :=
  (STATS.map (fun stat => statEntry 5 stat (statVal guessPokemon stat) (statVal targetPokemon stat)))
    ++ [statEntry 20 ("total") (statTotal guessPokemon) (statTotal targetPokemon)]

/-- compareGuess of variant 2: only the six stat rows, no total row. -/
def compareGuessV2 (guessPokemon targetPokemon : Record) : List FeedbackEntry :=
  STATS.map (fun stat => statEntry 5 stat (statVal guessPokemon stat) (statVal targetPokemon stat))

/-- The seven feedback positions of variant 1, as stat names. -/
def statNameAt (i : Fin 7) : String :=
  (STATS ++ [("total")]).get (Fin.cast (by decide) i)

/-- The value a record contributes at each of the seven feedback
positions: the six stats, then the synthetic total. -/
def statValAt (p : Record) (i : Fin 7) : Int :=
  ([p.hp, p.attack, p.defense, p.sp_attack, p.sp_defense, p.speed, statTotal p]).get (Fin.cast rfl i)

/-- The closeness threshold at each of the seven feedback positions. -/
def thrAt (i : Fin 7) : Nat := if i.val = 6 then 20 else 5

/-- The feedback entry of compareGuess at each of the seven positions. -/
def entryAt (g t : Record) (i : Fin 7) : FeedbackEntry :=
  (compareGuess g t).get (Fin.cast (by rfl) i)

/-- The three hintable facets, the HINTS constant of the source. -/
inductive HintType
  | type1
  | type2
  | generation
deriving DecidableEq

/-- The hintsUsed object: one revealed flag per facet. -/
structure HintsUsed where
  type1 : Bool
  type2 : Bool
  generation : Bool
deriving DecidableEq

/-- Property access hintsUsed[hintType]. -/
def HintsUsed.read (h : HintsUsed) : HintType → Bool
  | .type1 => h.type1
  | .type2 => h.type2
  | .generation => h.generation

/-- The assignment hintsUsed[hintType] = true. -/
def HintsUsed.mark (h : HintsUsed) : HintType → HintsUsed
  | .type1 => { h with type1 := true }
  | .type2 => { h with type2 := true }
  | .generation => { h with generation := true }

/-- One element pushed onto the guesses array: the canonical name, the
matched record and the feedback computed against the target. -/
structure Guess where
  name : String
  pokemon : Record
  feedback : List FeedbackEntry
deriving DecidableEq

/-- The mutable session globals of variant 1: guesses, hintsUsed,
gameWon and gameHistoryString. -/
structure GameState where
  guesses : List Guess
  hintsUsed : HintsUsed
  gameWon : Bool
  gameHistoryString : String
deriving DecidableEq

/-- The values the globals hold right after initialization, before any
action: the Idle session. -/
def freshState : GameState :=
  { guesses := [], hintsUsed := ⟨false, false, false⟩, gameWon := false, gameHistoryString := "" }

/-- The recoverable failures of the two mutating handlers of variant 1,
named as in the specification taxonomy. In the source each corresponds to
an early return (with a user message, or silently for the won guard). -/
inductive GameError
  | gameAlreadyWon
  | emptyInput
  | unknownEntity
  | duplicateGuess
  | alreadyRevealed
deriving DecidableEq

/-- handleSubmitGuess of variant 1, with the DOM reads and writes
stripped: the input text plays the role of the input field value, the
returned pair is the new globals and the error of the early return taken,
if any. The guard order is the order of the source: won, empty after
trim, unknown name, duplicate, then the scoring and the win check. -/
def handleSubmitGuess (pokemonData : List Record) (targetPokemon : Record)
    (s : GameState) (input : String) : GameState × Option GameError :=
  if s.gameWon then (s, some .gameAlreadyWon)
  else
    let guessName := jsTrim input
    if guessName = "" then (s, some .emptyInput)
    else
      match pokemonData.find? (fun p => jsToLower p.name = jsToLower guessName) with
      | none => (s, some .unknownEntity)
      | some guessedPokemon =>
        if s.guesses.any (fun g => jsToLower g.name = jsToLower guessName) then
          (s, some .duplicateGuess)
        else
          let feedback := compareGuess guessedPokemon targetPokemon
          let guesses := s.guesses ++
            [{ name := guessedPokemon.name, pokemon := guessedPokemon, feedback := feedback }]
          if jsToLower guessedPokemon.name = jsToLower targetPokemon.name then
            ({ s with
                guesses := guesses
                gameWon := true
                gameHistoryString := s.gameHistoryString ++ ("O") }, none)
          else
            ({ s with
                guesses := guesses
                gameHistoryString := s.gameHistoryString ++ ("X") }, none)

/-- The history symbol appended for each facet by variant 1. -/
def hintSymbol : HintType → String
  | .type1 => ("T")
  | .type2 => ("Y")
  | .generation => ("G")

/-- handleHintClick of variant 1. The single guard gameWon or
hintsUsed[hintType] is split into the two named errors in its
short-circuit order; there is no availability check for type2. -/
def handleHintClick (s : GameState) (hintType : HintType) : GameState × Option GameError :=
  if s.gameWon then (s, some .gameAlreadyWon)
  else if s.hintsUsed.read hintType then (s, some .alreadyRevealed)
  else
    ({ s with
        hintsUsed := s.hintsUsed.mark hintType
        gameHistoryString := s.gameHistoryString ++ hintSymbol hintType }, none)

/-- The session globals of variant 2, which keeps no history string. -/
structure GameStateV2 where
  guesses : List Guess
  hintsUsed : HintsUsed
  gameWon : Bool
deriving DecidableEq

/-- The failures of handleHintClick of variant 2: the silent won or
already-revealed guard, and the only-one-type message. -/
inductive HintErrorV2
  | blockedWonOrRevealed
  | hintUnavailable
deriving DecidableEq

/-- The fresh Idle session of variant 2. -/
def freshStateV2 : GameStateV2 :=
  { guesses := [], hintsUsed := ⟨false, false, false⟩, gameWon := false }

/-- handleHintClick of variant 2: after the won or already-revealed
guard, a type2 request is rejected when the target has no second type. -/
def handleHintClickV2 (targetPokemon : Record) (s : GameStateV2) (hintType : HintType) :
    GameStateV2 × Option HintErrorV2 :=
  if s.gameWon || s.hintsUsed.read hintType then (s, some .blockedWonOrRevealed)
  else if hintType = .type2 ∧ targetPokemon.type2 = none then (s, some .hintUnavailable)
  else ({ s with hintsUsed := s.hintsUsed.mark hintType }, none)

/-- The two mutating entry points of the session. -/
inductive Action
  | submit (input : String)
  | hint (hintType : HintType)

/-- One player action against the variant 1 session. -/
def step (pokemonData : List Record) (targetPokemon : Record) (s : GameState) :
    Action → GameState × Option GameError
  | .submit input => handleSubmitGuess pokemonData targetPokemon s input
  | .hint h => handleHintClick s h

/-- The five meaningful session actions recorded in the history string. -/
inductive Event
  | wrongGuess
  | correctGuess
  | hintType1
  | hintType2
  | hintGeneration
deriving DecidableEq

/-- The history symbol of each event: X, O, T, Y, G. -/
def encodeEvent : Event → Char
  | .wrongGuess => 'X'
  | .correctGuess => 'O'
  | .hintType1 => 'T'
  | .hintType2 => 'Y'
  | .hintGeneration => 'G'

/-- The event recorded by a successful hint click on each facet. -/
def hintEvent : HintType → Event
  | .type1 => .hintType1
  | .type2 => .hintType2
  | .generation => .hintGeneration

/-- The events an action contributes: none when the handler takes an
early return, one per successful mutation, a correct guess being one
whose resulting state is won. -/
def stepEvents (pokemonData : List Record) (targetPokemon : Record)
    (s : GameState) (a : Action) : List Event :=
  if (step pokemonData targetPokemon s a).2.isSome then []
  else
    match a with
    | .submit _ =>
        [if (step pokemonData targetPokemon s a).1.gameWon then Event.correctGuess
         else Event.wrongGuess]
    | .hint h => [hintEvent h]

/-- Run a list of actions from a state, collecting the final state and
the recorded events in order. -/
def runEv (pokemonData : List Record) (targetPokemon : Record) :
    GameState → List Action → GameState × List Event
  | s, [] => (s, [])
  | s, a :: as =>
    let s1 := (step pokemonData targetPokemon s a).1
    let rest := runEv pokemonData targetPokemon s1 as
    (rest.1, stepEvents pokemonData targetPokemon s a ++ rest.2)

/-- The number of hints revealed in a session. -/
def hintCount (h : HintsUsed) : Nat :=
  h.type1.toNat + h.type2.toNat + h.generation.toNat

/-- The first value produced by the sfc32 closure of variant 1, as the
numerator t over 2 to the 32: the JavaScript expression
((a + b | 0) + d | 0) >>> 0 equals the sum reduced modulo 2 to the 32.
Only this first draw is ever consumed; the parameter c enters later
state updates only, and is kept for the signature of the source. -/
def sfc32First (a b _c d : Nat) : Nat := (a + b + d) % 2 ^ 32

/-- Math.floor(rng() * data.length) for the first draw: rng() is the
exact dyadic rational t over 2 to the 32, so the floor is Nat division.
For list lengths below 2 to the 21 the double-precision product t * n is
below 2 to the 53 and the JavaScript computation is exact, so this model
coincides with the source bit for bit there; larger products round but
can never reach n, since rng() is at most 1 - 2 to the minus 32. -/
def selectIndex (n : Nat) (a b c d : Nat) : Nat := sfc32First a b c d * n / 2 ^ 32

/-- selectDailyPokemon of variant 1 for the four hashed seed words:
data[randomIndex], with the undefined result of an out-of-range access
modeled as none. The source has no emptiness check and no clamp. -/
def selectDailyPokemon (data : List Record) (a b c d : Nat) : Option Record :=
  data.get? (selectIndex data.length a b c d)

/-- Modelled from the spec: section 4.3 describes the selection with a
defensive clamp of the index to the range 0 to N - 1; this definition
follows those words, to be compared with selectDailyPokemon above. -/
def selectDailyPokemonSpec (data : List Record) (a b c d : Nat) : Option Record :=
  data.get? (min (selectIndex data.length a b c d) (data.length - 1))

/-- The selection failure named by the spec taxonomy. -/
inductive SelectError
  | emptyDataset
deriving DecidableEq

/-- Modelled from the spec: sections 4.3 and 7 require selection on an
empty dataset to fail with EmptyDataset before any draw or indexing; this
definition follows those words, to be compared with selectDailyPokemon
above, which has no such branch. -/
def selectDailyPokemonChecked (data : List Record) (a b c d : Nat) :
    Except SelectError Record :=
  match data with
  | [] => .error .emptyDataset
  | x :: xs =>
    .ok ((x :: xs).getD (min (selectIndex (x :: xs).length a b c d) ((x :: xs).length - 1)) x)

/-- The persisted session of variant 1, as written by saveGameState: the
date key and the four globals. The history string is read back with a
fallback to the empty string, so it is optional here. -/
structure StoredState where
  date : String
  guesses : List Guess
  hintsUsed : HintsUsed
  gameWon : Bool
  gameHistoryString : Option String
deriving DecidableEq

/-- loadGameState of variant 1: given the derived date key of today, the
current globals and the stored record, return the globals after the call
and the storage after the call. A missing record leaves both untouched; a
matching date restores the four globals and keeps the record; a stale
date removes the record and leaves the globals untouched. -/
def loadGameState (today : String) (s : GameState) (storage : Option StoredState) :
    GameState × Option StoredState :=
  match storage with
  | none => (s, storage)
  | some st =>
    if st.date = today then
      ({ guesses := st.guesses
         hintsUsed := st.hintsUsed
         gameWon := st.gameWon
         gameHistoryString := st.gameHistoryString.getD "" }, some st)
    else
      (s, none)

/-- A sample dataset record with a second type. -/
def bulbasaur : Record :=
  { name := ("Bulbasaur"), hp := 45, attack := 49, defense := 49, sp_attack := 65,
    sp_defense := 65, speed := 45, type1 := ("Grass"), type2 := some ("Poison"),
    generation := ("1") }

/-- A second sample dataset record. -/
def ivysaur : Record :=
  { name := ("Ivysaur"), hp := 60, attack := 62, defense := 63, sp_attack := 80,
    sp_defense := 80, speed := 60, type1 := ("Grass"), type2 := some ("Poison"),
    generation := ("1") }

/-- A sample dataset record without a second type. -/
def squirtle : Record :=
  { name := ("Squirtle"), hp := 44, attack := 48, defense := 65, sp_attack := 50,
    sp_defense := 64, speed := 43, type1 := ("Water"), type2 := none,
    generation := ("1") }

/-- A two-record sample dataset. -/
def sampleData : List Record := [bulbasaur, ivysaur]

/-- The session after one wrong guess of Bulbasaur against target
Ivysaur, used to exercise the duplicate guard. -/
def afterWrongGuess : GameState :=
  (step sampleData ivysaur freshState (Action.submit ("bulbasaur"))).1

/-- The session after the winning guess of Bulbasaur against target
Bulbasaur, used to exercise the won guard. -/
def afterWinningGuess : GameState :=
  (step sampleData bulbasaur freshState (Action.submit ("bulbasaur"))).1

/-- A sample stale stored session with rich content: one guess, two
hints, a won flag and a history, saved under a different date key. -/
def staleStored : StoredState :=
  { date := ("20250101")
    guesses := [{ name := bulbasaur.name, pokemon := bulbasaur,
                  feedback := compareGuess bulbasaur bulbasaur }]
    hintsUsed := ⟨true, false, true⟩
    gameWon := true
    gameHistoryString := some ("TGO") }

end PokeGuesser

namespace PokeGuesser

theorem statEntry_spec (r : Nat) (s : String) (g t : Int) :
    ((statEntry r s g t).cls = "green" ↔ g = t) ∧
    ((statEntry r s g t).cls = "yellow" ↔ (g ≠ t ∧ (g - t).natAbs ≤ r)) ∧
    ((statEntry r s g t).cls = "red" ↔ (g ≠ t ∧ r < (g - t).natAbs)) ∧
    ((statEntry r s g t).indicator = "↑" ↔ g < t) ∧
    ((statEntry r s g t).indicator = "↓" ↔ t < g) ∧
    ((statEntry r s g t).indicator = "" ↔ g = t) := by
  unfold statEntry
  refine ⟨?_, ?_, ?_, ?_, ?_, ?_⟩ <;> simp only [] <;> split_ifs <;> simp_all <;> omega

theorem entryAt_eq (g t : Record) (i : Fin 7) :
    entryAt g t i = statEntry (thrAt i) (statNameAt i) (statValAt g i) (statValAt t i) := by
  fin_cases i <;> rfl

/-- C1: for every candidate g and target t and every feedback position,
the entry is exact (green) iff the values are equal, close (yellow) iff
unequal and within the threshold (5 per stat, 20 for the total), else far
(red); the indicator is the up arrow iff the guess is below the target,
the down arrow iff above, and empty iff equal — so an exact match is
never classified close. -/
theorem compareGuess_as_statEntry (g t : Record) :
    compareGuess g t =
      [statEntry 5 (statNameAt 0) (statValAt g 0) (statValAt t 0),
       statEntry 5 (statNameAt 1) (statValAt g 1) (statValAt t 1),
       statEntry 5 (statNameAt 2) (statValAt g 2) (statValAt t 2),
       statEntry 5 (statNameAt 3) (statValAt g 3) (statValAt t 3),
       statEntry 5 (statNameAt 4) (statValAt g 4) (statValAt t 4),
       statEntry 5 (statNameAt 5) (statValAt g 5) (statValAt t 5),
       statEntry 20 (statNameAt 6) (statValAt g 6) (statValAt t 6)] := rfl

theorem c1_scorer_classification (g t : Record) (i : Fin 7) :
    ((entryAt g t i).cls = "green" ↔ statValAt g i = statValAt t i) ∧
    ((entryAt g t i).cls = "yellow" ↔ (statValAt g i ≠ statValAt t i ∧
        (statValAt g i - statValAt t i).natAbs ≤ thrAt i)) ∧
    ((entryAt g t i).cls = "red" ↔ (statValAt g i ≠ statValAt t i ∧
        thrAt i < (statValAt g i - statValAt t i).natAbs)) ∧
    ((entryAt g t i).indicator = "↑" ↔ statValAt g i < statValAt t i) ∧
    ((entryAt g t i).indicator = "↓" ↔ statValAt t i < statValAt g i) ∧
    ((entryAt g t i).indicator = "" ↔ statValAt g i = statValAt t i) := by
  rw [entryAt_eq]
  exact statEntry_spec _ _ _ _

/-- C2, counterexample: the claim says the scorer returns exactly 7
entries for every record pair, but the compareGuess of variant 2 returns
6 entries (it pushes no total row), refuted here at a concrete pair. -/
theorem c2_counterexample : (compareGuessV2 bulbasaur bulbasaur).length ≠ 7 := by decide

/-- C2, amended: the compareGuess of variant 1 returns exactly 7 entries,
the six stats in the canonical order hp, attack, defense, sp_attack,
sp_defense, speed followed by a total row whose guessed value is the sum
of the six stat values of the candidate; the compareGuess of variant 2
returns exactly 6 entries, the six stats in the same order, with no
total row. -/
theorem c2_feedback_shape (g t : Record) :
    (compareGuess g t).length = 7 ∧
    (compareGuess g t).map FeedbackEntry.stat =
      [("hp"), ("attack"), ("defense"), ("sp_attack"), ("sp_defense"), ("speed"), ("total")] ∧
    (entryAt g t 6).value = statTotal g ∧
    (compareGuessV2 g t).length = 6 ∧
    (compareGuessV2 g t).map FeedbackEntry.stat =
      [("hp"), ("attack"), ("defense"), ("sp_attack"), ("sp_defense"), ("speed")] := by
  exact ⟨rfl, rfl, rfl, rfl, rfl⟩

theorem handleSubmitGuess_cases (data : List Record) (target : Record) (s : GameState)
    (input : String) :
    (∃ e, handleSubmitGuess data target s input = (s, some e)) ∨
    (∃ gp, data.find? (fun p => jsToLower p.name = jsToLower (jsTrim input)) = some gp ∧
      s.gameWon = false ∧ jsToLower gp.name = jsToLower target.name ∧
      handleSubmitGuess data target s input =
        ({ s with
            guesses := s.guesses ++ [⟨gp.name, gp, compareGuess gp target⟩]
            gameWon := true
            gameHistoryString := s.gameHistoryString ++ ("O") }, none)) ∨
    (∃ gp, data.find? (fun p => jsToLower p.name = jsToLower (jsTrim input)) = some gp ∧
      s.gameWon = false ∧ ¬ jsToLower gp.name = jsToLower target.name ∧
      handleSubmitGuess data target s input =
        ({ s with
            guesses := s.guesses ++ [⟨gp.name, gp, compareGuess gp target⟩]
            gameHistoryString := s.gameHistoryString ++ ("X") }, none)) := by
  unfold handleSubmitGuess
  by_cases hw : s.gameWon
  · exact Or.inl ⟨GameError.gameAlreadyWon, by simp [hw]⟩
  · by_cases he : jsTrim input = ""
    · exact Or.inl ⟨GameError.emptyInput, by simp [hw, he]⟩
    · cases hf : data.find? (fun p => jsToLower p.name = jsToLower (jsTrim input)) with
      | none => exact Or.inl ⟨GameError.unknownEntity, by simp [hw, he, hf]⟩
      | some gp =>
        by_cases hdup : s.guesses.any (fun g => jsToLower g.name = jsToLower (jsTrim input)) = true
        · exact Or.inl ⟨GameError.duplicateGuess, by simp [hw, he, hf, hdup]⟩
        · by_cases hm : jsToLower gp.name = jsToLower target.name
          · exact Or.inr (Or.inl ⟨gp, rfl, by simpa using hw, hm, by simp [hw, he, hf, hdup, hm]⟩)
          · exact Or.inr (Or.inr ⟨gp, rfl, by simpa using hw, hm, by simp [hw, he, hf, hdup, hm]⟩)

theorem handleHintClick_cases (s : GameState) (h : HintType) :
    (∃ e, handleHintClick s h = (s, some e)) ∨
    (s.gameWon = false ∧ s.hintsUsed.read h = false ∧
      handleHintClick s h =
        ({ s with
            hintsUsed := s.hintsUsed.mark h
            gameHistoryString := s.gameHistoryString ++ hintSymbol h }, none)) := by
  unfold handleHintClick
  by_cases hw : s.gameWon
  · exact Or.inl ⟨GameError.gameAlreadyWon, by simp [hw]⟩
  · by_cases hu : s.hintsUsed.read h
    · exact Or.inl ⟨GameError.alreadyRevealed, by simp [hw, hu]⟩
    · exact Or.inr ⟨by simpa using hw, by simpa using hu, by simp [hw, hu]⟩

/-- C3: the won flag is set only by a submission whose matched record has
the same lowercased name as the target; once it is set, every action
leaves the session unchanged, every submission fails with GameAlreadyWon,
and the flag never reverts — so it becomes true exactly once. -/
theorem c3_won_terminal (data : List Record) (target : Record) (s : GameState)
    (input : String) (a : Action) :
    (s.gameWon = true →
      step data target s (Action.submit input) = (s, some GameError.gameAlreadyWon)) ∧
    (s.gameWon = true → (step data target s a).1 = s) ∧
    (s.gameWon = true → (step data target s a).1.gameWon = true) ∧
    ((step data target s a).1.gameWon = true → s.gameWon = true ∨
      ∃ inp gp, a = Action.submit inp ∧
        data.find? (fun p => jsToLower p.name = jsToLower (jsTrim inp)) = some gp ∧
        jsToLower gp.name = jsToLower target.name) ∧
    ((step data target s (Action.submit input)).2 = none →
      ((step data target s (Action.submit input)).1.gameWon = true ↔
        ∃ gp, data.find? (fun p => jsToLower p.name = jsToLower (jsTrim input)) = some gp ∧
          jsToLower gp.name = jsToLower target.name)) := by
  have hunch : s.gameWon = true → (step data target s a).1 = s := by
    intro hw
    cases a with
    | submit inp => simp [step, handleSubmitGuess, hw]
    | hint h => simp [step, handleHintClick, hw]
  refine ⟨fun hw => by simp [step, handleSubmitGuess, hw], hunch,
    fun hw => by rw [hunch hw]; exact hw, ?_, ?_⟩
  · intro hwon
    by_cases hw : s.gameWon
    · exact Or.inl hw
    · cases a with
      | hint h =>
        rcases handleHintClick_cases s h with ⟨e, heq⟩ | ⟨-, -, heq⟩ <;>
          simp [step, heq] at hwon <;> simp_all
      | submit inp =>
        rcases handleSubmitGuess_cases data target s inp with
          ⟨e, heq⟩ | ⟨gp, hf, -, hm, heq⟩ | ⟨gp, hf, -, hm, heq⟩
        · simp [step, heq] at hwon; simp_all
        · exact Or.inr ⟨inp, gp, rfl, hf, hm⟩
        · simp [step, heq] at hwon; simp_all
  · intro hok
    rcases handleSubmitGuess_cases data target s input with
      ⟨e, heq⟩ | ⟨gp, hf, -, hm, heq⟩ | ⟨gp, hfind, hw, hm, heq⟩
    · simp [step, heq] at hok
    · refine ⟨fun _ => ⟨gp, hf, hm⟩, fun _ => ?_⟩
      simp [step, heq]
    · constructor
      · intro hwon
        rw [show step data target s (Action.submit input) = _ from heq] at hwon
        simp [hw] at hwon
      · rintro ⟨gp2, hf2, hm2⟩
        rw [hfind] at hf2
        cases hf2
        exact absurd hm2 hm

/-- C3 witness: with the session already won, a further submission fails
with GameAlreadyWon and the session is unchanged. -/
theorem c3_witness :
    step sampleData bulbasaur afterWinningGuess (Action.submit ("Bulbasaur"))
      = (afterWinningGuess, some GameError.gameAlreadyWon) :=
  (c3_won_terminal sampleData bulbasaur afterWinningGuess ("Bulbasaur")
    (Action.hint HintType.type1)).1 (by decide)

/-- C4, counterexample: the claim says a reveal of the secondary facet
fails and changes nothing whenever the target has no secondary category,
but the handleHintClick of variant 1 consults no target at all: with
target Squirtle, which has no second type, the click on type2 from the
fresh session succeeds, sets the flag and appends the Y symbol. -/
theorem c4_counterexample :
    squirtle.type2 = none ∧
    handleHintClick freshState HintType.type2 =
      ({ freshState with hintsUsed := ⟨false, true, false⟩, gameHistoryString := ("Y") },
        none) := by
  exact ⟨rfl, by decide⟩

/-- C4, amended: in variant 2, when the target has no secondary category,
handleHintClick on type2 never changes the session, and fails with
HintUnavailable whenever the session is not won and the flag is not yet
set (otherwise the earlier won or already-revealed guard fires, still
changing nothing); in variant 1 the handler has no availability check,
so the same click succeeds, sets the flag and appends the Y symbol —
only the disabled button in the rendering layer prevents it. -/
theorem c4_hint_unavailability (target : Record) (s : GameState) (s2 : GameStateV2)
    (htype2 : target.type2 = none) :
    (s.gameWon = false → s.hintsUsed.type2 = false →
      handleHintClick s HintType.type2 =
        ({ s with
            hintsUsed := s.hintsUsed.mark HintType.type2
            gameHistoryString := s.gameHistoryString ++ ("Y") }, none)) ∧
    ((handleHintClickV2 target s2 HintType.type2).1 = s2) ∧
    (s2.gameWon = false → s2.hintsUsed.type2 = false →
      handleHintClickV2 target s2 HintType.type2 = (s2, some HintErrorV2.hintUnavailable)) := by
  refine ⟨fun hw hu => ?_, ?_, fun hw hu => ?_⟩
  · simp [handleHintClick, hw, HintsUsed.read, hu, hintSymbol]
  · unfold handleHintClickV2
    split_ifs with h1 h2
    · rfl
    · rfl
    · exact absurd ⟨rfl, htype2⟩ h2
  · simp [handleHintClickV2, hw, HintsUsed.read, hu, htype2]

/-- C4 witness: variant 2 rejects the type2 reveal with HintUnavailable
on the fresh session when the target Squirtle has no second type. -/
theorem c4_witness :
    handleHintClickV2 squirtle freshStateV2 HintType.type2 =
      (freshStateV2, some HintErrorV2.hintUnavailable) :=
  (c4_hint_unavailability squirtle freshState freshStateV2 rfl).2.2 rfl rfl

/-- C7, counterexample: the claim says a resubmission of an already
guessed name fails with DuplicateGuess, but when the first guess of that
name won the game the won guard fires first: after the winning guess of
Bulbasaur, submitting bulbasaur again fails with GameAlreadyWon, not
DuplicateGuess. -/
theorem c7_counterexample :
    afterWinningGuess.guesses.any
      (fun g => jsToLower g.name = jsToLower (jsTrim ("bulbasaur"))) = true ∧
    (step sampleData bulbasaur afterWinningGuess (Action.submit ("bulbasaur"))).2
      = some GameError.gameAlreadyWon ∧
    (step sampleData bulbasaur afterWinningGuess (Action.submit ("bulbasaur"))).2
      ≠ some GameError.duplicateGuess := by
  decide

/-- C7, amended: submitting a name that case-insensitively matches an
already guessed record fails on the second attempt and leaves the whole
session unchanged; the error is DuplicateGuess when the session is not
yet won (and the trimmed name is nonempty and matches a dataset record,
as it does after a successful first attempt), and GameAlreadyWon when the
first guess of that name won the game, since the won guard precedes the
duplicate check. -/
theorem c7_duplicate_guard (data : List Record) (target : Record) (s : GameState)
    (input : String)
    (hdup : s.guesses.any (fun g => jsToLower g.name = jsToLower (jsTrim input)) = true) :
    (s.gameWon = false →
      jsTrim input ≠ "" →
      (∃ gp, data.find? (fun p => jsToLower p.name = jsToLower (jsTrim input)) = some gp) →
      step data target s (Action.submit input) = (s, some GameError.duplicateGuess)) ∧
    (s.gameWon = true →
      step data target s (Action.submit input) = (s, some GameError.gameAlreadyWon)) := by
  constructor
  · rintro hw he ⟨gp, hf⟩
    simp [step, handleSubmitGuess, hw, he, hf, hdup]
  · intro hw
    simp [step, handleSubmitGuess, hw]

/-- C7 witness: after the wrong guess of Bulbasaur against target
Ivysaur, resubmitting BULBASAUR fails with DuplicateGuess and the session
is unchanged. -/
theorem c7_witness :
    step sampleData ivysaur afterWrongGuess (Action.submit ("BULBASAUR"))
      = (afterWrongGuess, some GameError.duplicateGuess) :=
  (c7_duplicate_guard sampleData ivysaur afterWrongGuess ("BULBASAUR") (by decide)).1
    (by decide) (by decide) ⟨bulbasaur, by decide⟩

/-- C10: whenever a submission succeeds, the guess appended to the
session carries the name field of the matched dataset record — the
canonical casing — not the raw user input, so the duplicate check and the
history rows always see canonical dataset names. -/
theorem c10_canonical_name (data : List Record) (target : Record) (s : GameState)
    (input : String)
    (hok : (step data target s (Action.submit input)).2 = none) :
    ∃ gp, data.find? (fun p => jsToLower p.name = jsToLower (jsTrim input)) = some gp ∧
      gp ∈ data ∧
      (step data target s (Action.submit input)).1.guesses =
        s.guesses ++ [{ name := gp.name, pokemon := gp, feedback := compareGuess gp target }] := by
  rcases handleSubmitGuess_cases data target s input with
    ⟨e, heq⟩ | ⟨gp, hf, -, -, heq⟩ | ⟨gp, hf, -, -, heq⟩
  · simp [step, heq] at hok
  · exact ⟨gp, hf, List.mem_of_find?_eq_some hf, by simp [step, heq]⟩
  · exact ⟨gp, hf, List.mem_of_find?_eq_some hf, by simp [step, heq]⟩

/-- C10 witness: submitting BULBASAUR against target Ivysaur appends a
guess named Bulbasaur, the canonical dataset casing. -/
theorem c10_witness :
    ∃ gp, sampleData.find?
        (fun p => jsToLower p.name = jsToLower (jsTrim ("BULBASAUR"))) = some gp ∧
      gp ∈ sampleData ∧
      (step sampleData ivysaur freshState (Action.submit ("BULBASAUR"))).1.guesses =
        freshState.guesses ++
          [{ name := gp.name, pokemon := gp, feedback := compareGuess gp ivysaur }] :=
  c10_canonical_name sampleData ivysaur freshState ("BULBASAUR") (by decide)

/-- C5, counterexample: the claim says selection on an empty dataset
fails with EmptyDataset with no draw and no indexing, but
selectDailyPokemon has no emptiness branch: on the empty dataset it still
computes the index 0 from the draw and returns the undefined result of
the access data[0] as a normal value — the spec-modelled checked selector
is what would signal EmptyDataset. -/
theorem c5_counterexample :
    selectDailyPokemon [] 1 2 3 4 = none ∧
    selectIndex 0 1 2 3 4 = 0 ∧
    selectDailyPokemonChecked [] 1 2 3 4 = Except.error SelectError.emptyDataset := by
  exact ⟨by decide, by decide, rfl⟩

/-- C5, amended: on the empty dataset selectDailyPokemon does not fail
with an EmptyDataset error; for every seed it computes the index
floor(r times 0) = 0 and returns the undefined result of the out-of-range
access data[0], modeled as none. -/
theorem c5_empty_dataset (a b c d : Nat) :
    selectIndex 0 a b c d = 0 ∧ selectDailyPokemon [] a b c d = none := by
  refine ⟨by simp [selectIndex], ?_⟩
  simp [selectDailyPokemon]

/-- C6: for every nonempty dataset and every seed, the index computed
from the first draw, floor(r times N), is already within 0 to N - 1, so
the defensive clamp of the spec is the identity on it, the code and the
spec-modelled clamped selector agree, and the returned element is the
dataset entry at that index — never an out-of-range access. -/
theorem c6_selection_in_bounds (data : List Record) (a b c d : Nat) (hne : data ≠ []) :
    selectIndex data.length a b c d < data.length ∧
    min (selectIndex data.length a b c d) (data.length - 1) =
      selectIndex data.length a b c d ∧
    selectDailyPokemon data a b c d = selectDailyPokemonSpec data a b c d ∧
    ∃ h : selectIndex data.length a b c d < data.length,
      selectDailyPokemon data a b c d =
        some (data.get ⟨selectIndex data.length a b c d, h⟩) := by
  have hn : 0 < data.length := List.length_pos.mpr hne
  have ht : sfc32First a b c d < 2 ^ 32 := Nat.mod_lt _ (by norm_num)
  have hidx : selectIndex data.length a b c d < data.length := by
    have : sfc32First a b c d * data.length < data.length * 2 ^ 32 := by
      calc sfc32First a b c d * data.length
          = data.length * sfc32First a b c d := Nat.mul_comm _ _
        _ < data.length * 2 ^ 32 := (Nat.mul_lt_mul_left hn).mpr ht
    exact (Nat.div_lt_iff_lt_mul (by norm_num)).mpr this
  have hmin : min (selectIndex data.length a b c d) (data.length - 1) =
      selectIndex data.length a b c d :=
    Nat.min_eq_left (by omega)
  refine ⟨hidx, hmin, ?_, hidx, ?_⟩
  · unfold selectDailyPokemon selectDailyPokemonSpec
    rw [hmin]
  · unfold selectDailyPokemon
    exact List.get?_eq_get hidx

/-- C6 witness: on the two-record sample dataset with the seed words
1, 2, 3, 4 the computed index is in bounds and the selected record is
the dataset entry at it. -/
theorem c6_witness :
    selectIndex sampleData.length 1 2 3 4 < sampleData.length ∧
    min (selectIndex sampleData.length 1 2 3 4) (sampleData.length - 1) =
      selectIndex sampleData.length 1 2 3 4 ∧
    selectDailyPokemon sampleData 1 2 3 4 = selectDailyPokemonSpec sampleData 1 2 3 4 ∧
    ∃ h : selectIndex sampleData.length 1 2 3 4 < sampleData.length,
      selectDailyPokemon sampleData 1 2 3 4 =
        some (sampleData.get ⟨selectIndex sampleData.length 1 2 3 4, h⟩) :=
  c6_selection_in_bounds sampleData 1 2 3 4 (by decide)

/-- C9: restoring a stored session whose date key differs from the
derived date of today discards it entirely — the storage entry is
removed and no field is reused — and the session is the fresh Idle
state: zero guesses, no hints revealed, won false, empty history,
whatever the stored content was. -/
theorem c9_stale_restore (today : String) (st : StoredState) (hdate : st.date ≠ today) :
    loadGameState today freshState (some st) = (freshState, none) ∧
    freshState.guesses = [] ∧
    freshState.hintsUsed = ⟨false, false, false⟩ ∧
    freshState.gameWon = false ∧
    freshState.gameHistoryString = "" := by
  refine ⟨?_, rfl, rfl, rfl, rfl⟩
  simp [loadGameState, hdate]

/-- C9 witness: the rich stale stored session is discarded whole and the
session after the load is the fresh Idle state. -/
theorem c9_witness :
    loadGameState ("20261011") freshState (some staleStored) = (freshState, none) ∧
    freshState.guesses = [] ∧
    freshState.hintsUsed = ⟨false, false, false⟩ ∧
    freshState.gameWon = false ∧
    freshState.gameHistoryString = "" :=
  c9_stale_restore ("20261011") staleStored (by decide)

theorem string_data_append (s t : String) : (s ++ t).data = s.data ++ t.data := rfl

theorem hintSymbol_data (h : HintType) :
    (hintSymbol h).data = [encodeEvent (hintEvent h)] := by
  cases h <;> rfl

theorem hintCount_mark (h : HintsUsed) (t : HintType) (hu : h.read t = false) :
    hintCount (h.mark t) = hintCount h + 1 := by
  cases t <;> simp [HintsUsed.read] at hu <;>
    simp [hintCount, HintsUsed.mark, hu] <;> omega

theorem stepEvents_spec (data : List Record) (target : Record) (s : GameState) (a : Action) :
    ((step data target s a).1.gameHistoryString.data =
      s.gameHistoryString.data ++ (stepEvents data target s a).map encodeEvent) ∧
    ((step data target s a).1.guesses.length + hintCount (step data target s a).1.hintsUsed =
      s.guesses.length + hintCount s.hintsUsed + (stepEvents data target s a).length) := by
  cases a with
  | submit inp =>
    rcases handleSubmitGuess_cases data target s inp with
      ⟨e, heq⟩ | ⟨gp, hf, hw, hm, heq⟩ | ⟨gp, hf, hw, hm, heq⟩
    · have h2 : step data target s (Action.submit inp) = (s, some e) := heq
      simp [stepEvents, h2]
    · have h2 : step data target s (Action.submit inp) =
        ({ s with
            guesses := s.guesses ++ [⟨gp.name, gp, compareGuess gp target⟩]
            gameWon := true
            gameHistoryString := s.gameHistoryString ++ ("O") }, none) := heq
      simp [stepEvents, h2, string_data_append]
      exact ⟨rfl, by omega⟩
    · have h2 : step data target s (Action.submit inp) =
        ({ s with
            guesses := s.guesses ++ [⟨gp.name, gp, compareGuess gp target⟩]
            gameHistoryString := s.gameHistoryString ++ ("X") }, none) := heq
      simp [stepEvents, h2, string_data_append, hw]
      exact ⟨rfl, by omega⟩
  | hint h =>
    rcases handleHintClick_cases s h with ⟨e, heq⟩ | ⟨hw, hu, heq⟩
    · have h2 : step data target s (Action.hint h) = (s, some e) := heq
      simp [stepEvents, h2]
    · have h2 : step data target s (Action.hint h) =
        ({ s with
            hintsUsed := s.hintsUsed.mark h
            gameHistoryString := s.gameHistoryString ++ hintSymbol h }, none) := heq
      simp [stepEvents, h2, string_data_append, hintSymbol_data, hintCount_mark s.hintsUsed h hu]
      omega

theorem runEv_spec (data : List Record) (target : Record) (as : List Action) (s : GameState) :
    ((runEv data target s as).1.gameHistoryString.data =
      s.gameHistoryString.data ++ ((runEv data target s as).2.map encodeEvent)) ∧
    ((runEv data target s as).1.guesses.length +
        hintCount (runEv data target s as).1.hintsUsed =
      s.guesses.length + hintCount s.hintsUsed + (runEv data target s as).2.length) := by
  induction as generalizing s with
  | nil => simp [runEv]
  | cons a as ih =>
    have hstep := stepEvents_spec data target s a
    have hih := ih ((step data target s a).1)
    simp only [runEv]
    constructor
    · rw [List.map_append, hih.1, hstep.1, List.append_assoc]
    · rw [List.length_append]
      omega

/-- C8: in every session state reachable from the fresh Idle state by a
sequence of player actions, the history string length equals the number
of guesses plus the number of hints revealed, and the string is exactly
the encoding, in submission order, of the successful actions: one symbol
per action, with the five symbols — wrong guess, correct guess and the
three hint facets — pairwise distinct. -/
theorem c8_history_invariant (data : List Record) (target : Record) (as : List Action) :
    ((runEv data target freshState as).1.gameHistoryString.length =
      (runEv data target freshState as).1.guesses.length +
        hintCount (runEv data target freshState as).1.hintsUsed) ∧
    ((runEv data target freshState as).1.gameHistoryString.data =
      (runEv data target freshState as).2.map encodeEvent) ∧
    (∀ e1 e2 : Event, encodeEvent e1 = encodeEvent e2 → e1 = e2) := by
  have h := runEv_spec data target as freshState
  have hdata : (runEv data target freshState as).1.gameHistoryString.data =
      (runEv data target freshState as).2.map encodeEvent := by
    rw [h.1]; rfl
  have hlen : (runEv data target freshState as).1.gameHistoryString.length =
      (runEv data target freshState as).2.length := by
    show (runEv data target freshState as).1.gameHistoryString.data.length = _
    rw [hdata, List.length_map]
  have hcnt := h.2
  refine ⟨?_, hdata, ?_⟩
  · rw [hlen]
    simpa [freshState, hintCount] using hcnt.symm
  · intro e1 e2 hab
    cases e1 <;> cases e2 <;> simp_all [encodeEvent]

end PokeGuesser
